import Mathlib

/-!
# Shallow embedding of the movie-catalog web application (src/main.ts)

The program is a single Deno HTTP handler serving a public movie catalog and a
cookie-authenticated admin panel backed by the Deno KV store.  We embed the
request handler as a pure function from an environment configuration, the
freshly generated UUID of this request, the request itself and the current
store contents to a result holding the response, the updated store and the
trace of KV operations the handler performed.

Modelling decisions, all taken from src/main.ts:
* Environment variables (`Deno.env.get`) yield `Option String` (`none` =
  variable unset, i.e. JS `undefined`).
* `FormData.get` yields `Option String` (`none` = field absent, i.e. JS
  `null`).  JS `===` between a form value and an env value is therefore false
  whenever either side is absent (`null === undefined` is `false`); this is
  `jsEqFormEnv`.
* The cookie check `auth === Deno.env.get("SECRET_COOKIE_VALUE")` compares two
  possibly-`undefined` values, and `undefined === undefined` is `true`; plain
  `Option` equality (`==`) models this exactly.
* `Deno.env.get(..) || crypto.randomUUID()` uses JS truthiness: the empty
  string is falsy; this is `jsOr`.
* The KV store namespace `("movies", id)` is modelled as an association list
  keyed by `id`; `kv.list({ prefix: ["movies"] })` scans the whole store in
  key order, so `kvSet` inserts sorted by key.
* HTML rendering is abstracted to a `Body` value carrying exactly the data
  the template interpolates (presentation is out of scope of the spec).
-/

namespace MovieApp

/-- The single persisted entity of the app (interface Movie in src/main.ts).
Text fields are `Option String` because the code casts `form.get(..)` with
`as string`, which leaves a JS `null` in place when the field is absent. -/
structure Movie where
  id : String
  title : Option String
  poster : Option String
  review : Option String
  screenshots : List String
  downloadUrl : Option String
deriving Repr, DecidableEq

/-- The form fields the handler ever reads via `form.get`. -/
structure Form where
  username : Option String
  password : Option String
  title : Option String
  poster : Option String
  review : Option String
  screenshots : Option String
  downloadUrl : Option String
deriving Repr, DecidableEq

/-- The environment variables the handler reads. -/
structure Env where
  adminUsername : Option String
  adminPassword : Option String
  secretCookieValue : Option String
deriving Repr, DecidableEq

/-- An inbound HTTP request, reduced to the parts the handler inspects:
method, URL pathname, the `auth` cookie (if present) and the parsed form. -/
structure Request where
  method : String
  pathname : String
  authCookie : Option String
  form : Form
deriving Repr, DecidableEq

/-- The data of a `Set-Cookie` header produced by `setCookie`. -/
structure SetCookieData where
  name : String
  value : String
  maxAge : Nat
  path : String
deriving Repr, DecidableEq

/-- The body of a response, abstracted to the data interpolated into the
HTML template (or the literal text of a plain-text response). -/
inductive Body where
  | empty : Body
  | text : String → Body
  | homeGrid : List Movie → Body
  | movieDetail : Movie → Body
  | loginForm : Body
  | adminDashboard : List Movie → Body
  | addForm : Body
  | editForm : Movie → Body
deriving Repr, DecidableEq

/-- An HTTP response: status, optional `Location` header, optional
`Set-Cookie`, whether the `auth` cookie is deleted, and the body. -/
structure Response where
  status : Nat
  location : Option String
  setCookie : Option SetCookieData
  clearsAuthCookie : Bool
  body : Body
deriving Repr, DecidableEq

/-- One operation against the KV store, as performed by the handler. -/
inductive KvOp where
  | list : KvOp
  | get : String → KvOp
  | set : String → Movie → KvOp
  | delete : String → KvOp
deriving Repr, DecidableEq

/-- The store: the entries under the `("movies", ·)` namespace, keyed by id,
kept in key order (Deno KV scans in key order). -/
def Store := List (String × Movie)
deriving instance Repr, DecidableEq for Store

/-- The outcome of handling one request. -/
structure Result where
  response : Response
  store : Store
  ops : List KvOp
deriving Repr, DecidableEq

/-- `kv.get(["movies", id])`: first (only) entry with the given key. -/
def kvGet : Store → String → Option Movie
  | [], _ => none
  | (k, v) :: rest, id => if k = id then some v else kvGet rest id

/-- `kv.set(["movies", id], m)`: upsert, keeping the store in key order. -/
def kvSet : Store → String → Movie → Store
  | [], id, m => [(id, m)]
  | (k, v) :: rest, id, m =>
    if id < k then (id, m) :: (k, v) :: rest
    else if id = k then (id, m) :: rest
    else (k, v) :: kvSet rest id m

/-- `kv.delete(["movies", id])`: removes the entry with the given key;
a no-op when the key is absent. -/
def kvDelete (store : Store) (id : String) : Store :=
  store.filter (fun p => p.1 != id)

/-- `kv.list({ prefix: ["movies"] })`: the values in scan (key) order. -/
def kvList (store : Store) : List Movie :=
  store.map Prod.snd

/-- JS `String.prototype.startsWith`, on explicit character lists
(first argument is the prospective initial segment). -/
def startsWithChars : List Char → List Char → Bool
  | [], _ => true
  | _ :: _, [] => false
  | p :: ps, c :: cs => p == c && startsWithChars ps cs

/-- `pathname.startsWith(pat)`. -/
def strStartsWith (path pat : String) : Bool :=
  startsWithChars pat.data path.data

/-- `new URLPattern({ pathname: pat + ":id" }).exec(url)`: matches exactly
when the pathname is `pat` followed by a non-empty segment without `/`,
and then yields that segment. -/
def segMatch (pat path : String) : Option String :=
  if startsWithChars pat.data path.data then
    let rest := path.data.drop pat.data.length
    if rest.isEmpty || rest.contains '/' then none
    else some ⟨rest⟩
  else none

/-- JS `===` between a `FormData.get` result (`null` when absent) and a
`Deno.env.get` result (`undefined` when unset): true only when both are
present and equal (`null === undefined` is false). -/
def jsEqFormEnv : Option String → Option String → Bool
  | some a, some b => a == b
  | _, _ => false

/-- JS `a || b` for `a : string | undefined`: the empty string and
`undefined` are falsy. -/
def jsOr : Option String → String → String
  | some s, f => if s.isEmpty then f else s
  | none, f => f

/-- JS `s.split(',')` on character lists: split at every comma; the empty
string yields one empty field. -/
def splitCommaAux : List Char → List Char → List (List Char)
  | [], acc => [acc.reverse]
  | c :: cs, acc =>
    if c = ',' then acc.reverse :: splitCommaAux cs []
    else splitCommaAux cs (c :: acc)

/-- JS `s.split(',')`. -/
def jsSplitComma (s : String) : List String :=
  (splitCommaAux s.data []).map fun cs => ⟨cs⟩

/-- JS `s.trim()`: strip leading and trailing whitespace. -/
def jsTrim (s : String) : String :=
  ⟨((s.data.dropWhile Char.isWhitespace).reverse.dropWhile Char.isWhitespace).reverse⟩

/-- `(form.get("screenshots") as string)?.split(',').map(s => s.trim())
.filter(s => s) || []`. -/
def parseScreenshots : Option String → List String
  | none => []
  | some s => ((jsSplitComma s).map jsTrim).filter (fun x => !x.isEmpty)

/-- The Movie record built from a form submission (add and edit handlers). -/
def mkMovie (id : String) (form : Form) : Movie :=
  { id := id
    title := form.title
    poster := form.poster
    review := form.review
    screenshots := parseScreenshots form.screenshots
    downloadUrl := form.downloadUrl }

/-- `HtmlResponse`: a 200 response carrying a rendered body. -/
def htmlResponse (b : Body) : Response :=
  { status := 200, location := none, setCookie := none
    clearsAuthCookie := false, body := b }

/-- A 303 redirect with a `Location` header. -/
def redirect303 (loc : String) : Response :=
  { status := 303, location := some loc, setCookie := none
    clearsAuthCookie := false, body := .empty }

/-- A plain-text response with the given status. -/
def textResponse (status : Nat) (s : String) : Response :=
  { status := status, location := none, setCookie := none
    clearsAuthCookie := false, body := .text s }

/-- The request handler of src/main.ts (the function passed to `Deno.serve`),
written as the same first-match-wins route chain.  `fresh` is the UUID
`crypto.randomUUID()` would generate during this request. -/
def handle (env : Env) (fresh : String) (req : Request) (store : Store) : Result :=
  let pathname := req.pathname
  let method := req.method
  let isLoggedIn : Bool := req.authCookie == env.secretCookieValue
  if pathname == "/" && method == "GET" then
    ⟨htmlResponse (.homeGrid (kvList store).reverse), store, [.list]⟩
  else if (segMatch "/movie/" pathname).isSome && method == "GET" then
    let id := (segMatch "/movie/" pathname).getD ""
    match kvGet store id with
    | none => ⟨textResponse 404 "Movie not found", store, [.get id]⟩
    | some movie => ⟨htmlResponse (.movieDetail movie), store, [.get id]⟩
  else if pathname == "/admin/login" && method == "GET" then
    ⟨htmlResponse .loginForm, store, []⟩
  else if pathname == "/admin/login" && method == "POST" then
    if jsEqFormEnv req.form.username env.adminUsername &&
       jsEqFormEnv req.form.password env.adminPassword then
      ⟨{ status := 303, location := some "/admin"
         setCookie := some ⟨"auth", jsOr env.secretCookieValue fresh, 60 * 60 * 24, "/"⟩
         clearsAuthCookie := false, body := .empty }, store, []⟩
    else ⟨redirect303 "/admin/login?error=1", store, []⟩
  else if pathname == "/logout" then
    ⟨{ status := 303, location := some "/admin/login", setCookie := none
       clearsAuthCookie := true, body := .empty }, store, []⟩
  else if strStartsWith pathname "/admin" && !isLoggedIn then
    ⟨redirect303 "/admin/login", store, []⟩
  else if pathname == "/admin" then
    if method != "GET" then ⟨textResponse 405 "Method Not Allowed", store, []⟩
    else ⟨htmlResponse (.adminDashboard (kvList store).reverse), store, [.list]⟩
  else if pathname == "/admin/add" && method == "GET" then
    ⟨htmlResponse .addForm, store, []⟩
  else if pathname == "/admin/add" && method == "POST" then
    let movie := mkMovie fresh req.form
    ⟨redirect303 "/admin", kvSet store fresh movie, [.set fresh movie]⟩
  else if (segMatch "/admin/edit/" pathname).isSome && method == "GET" then
    let id := (segMatch "/admin/edit/" pathname).getD ""
    match kvGet store id with
    | none => ⟨textResponse 404 "Not Found", store, [.get id]⟩
    | some movie => ⟨htmlResponse (.editForm movie), store, [.get id]⟩
  else if (segMatch "/admin/edit/" pathname).isSome && method == "POST" then
    let id := (segMatch "/admin/edit/" pathname).getD ""
    let movie := mkMovie id req.form
    ⟨redirect303 "/admin", kvSet store id movie, [.set id movie]⟩
  else if (segMatch "/admin/delete/" pathname).isSome && method == "POST" then
    let id := (segMatch "/admin/delete/" pathname).getD ""
    ⟨redirect303 "/admin", kvDelete store id, [.delete id]⟩
  else ⟨textResponse 404 "404: Page not found", store, []⟩

/-- The disjunction of all route guards of `handle`: a request "matches a
route" exactly when some branch other than the final fallback handles it. -/
def matchedRoute (env : Env) (req : Request) : Bool :=
  let p := req.pathname
  let m := req.method
  (p == "/" && m == "GET") ||
  ((segMatch "/movie/" p).isSome && m == "GET") ||
  (p == "/admin/login" && (m == "GET" || m == "POST")) ||
  (p == "/logout") ||
  (strStartsWith p "/admin" && !(req.authCookie == env.secretCookieValue)) ||
  (p == "/admin") ||
  (p == "/admin/add" && (m == "GET" || m == "POST")) ||
  ((segMatch "/admin/edit/" p).isSome && (m == "GET" || m == "POST")) ||
  ((segMatch "/admin/delete/" p).isSome && m == "POST")

/-! ## Helper lemmas about path matching -/

theorem startsWithChars_iff : ∀ (p s : List Char), startsWithChars p s = true ↔ ∃ t, s = p ++ t
  | [], s => by simp [startsWithChars]
  | _ :: _, [] => by simp [startsWithChars]
  | a :: as, b :: bs => by
    rw [startsWithChars]
    simp only [Bool.and_eq_true, beq_iff_eq, startsWithChars_iff as bs, List.cons_append]
    constructor
    · rintro ⟨rfl, t, rfl⟩
      exact ⟨t, rfl⟩
    · rintro ⟨t, ht⟩
      injection ht with h1 h2
      exact ⟨h1.symm, t, h2⟩

theorem append_ne_append {A B : List Char} {n : Nat} (hA : n ≤ A.length)
    (hB : n ≤ B.length) (hne : A.take n ≠ B.take n) :
    ∀ t u, A ++ t ≠ B ++ u := by
  intro t u he
  apply hne
  have h2 := congrArg (List.take n) he
  rwa [List.take_append_of_le_length hA, List.take_append_of_le_length hB] at h2

theorem append_ne_of_take {A L : List Char} {n : Nat} (hA : n ≤ A.length)
    (hL : n ≤ L.length) (hne : A.take n ≠ L.take n) :
    ∀ t, A ++ t ≠ L := by
  intro t he
  exact append_ne_append hA hL hne t [] (by rw [List.append_nil]; exact he)

theorem append_ne_of_length {A L : List Char} (h : L.length < A.length) :
    ∀ t, A ++ t ≠ L := by
  intro t he
  have h2 := congrArg List.length he
  simp only [List.length_append] at h2
  omega

theorem str_ne_of_data {path lit : String} {A t : List Char}
    (hd : path.data = A ++ t) (h : ∀ u, A ++ u ≠ lit.data) : path ≠ lit := by
  intro he
  exact h t (by rw [← hd, he])

theorem str_beq_false_of_data {path lit : String} {A t : List Char}
    (hd : path.data = A ++ t) (h : ∀ u, A ++ u ≠ lit.data) : (path == lit) = false :=
  beq_eq_false_iff_ne.mpr (str_ne_of_data hd h)

theorem not_startsWithChars {B s : List Char} (h : ∀ u, s ≠ B ++ u) :
    startsWithChars B s = false := by
  cases hb : startsWithChars B s
  · rfl
  · obtain ⟨t, ht⟩ := (startsWithChars_iff B s).mp hb
    exact absurd ht (h t)

theorem segMatch_eq_none {pat path : String}
    (h : startsWithChars pat.data path.data = false) : segMatch pat path = none := by
  simp [segMatch, h]

theorem segMatch_none_of_conflict {pat path : String} {A t : List Char} {n : Nat}
    (hd : path.data = A ++ t) (hA : n ≤ A.length) (hp : n ≤ pat.data.length)
    (hne : A.take n ≠ pat.data.take n) : segMatch pat path = none := by
  apply segMatch_eq_none
  apply not_startsWithChars
  intro u he
  exact append_ne_append hA hp hne t u (by rw [← hd, he])

theorem segMatch_some_iff {pat path id : String} :
    segMatch pat path = some id ↔
      path.data = pat.data ++ id.data ∧ id.data ≠ [] ∧ id.data.contains '/' = false := by
  constructor
  · intro h
    unfold segMatch at h
    by_cases hb : startsWithChars pat.data path.data = true
    · rw [if_pos hb] at h
      obtain ⟨t, ht⟩ := (startsWithChars_iff pat.data path.data).mp hb
      rw [ht, List.drop_left] at h
      by_cases he : (t.isEmpty || t.contains '/') = true
      · rw [if_pos he] at h
        simp at h
      · rw [if_neg he] at h
        injection h with h2
        subst h2
        rw [Bool.or_eq_true_iff] at he
        push_neg at he
        obtain ⟨h1, h2⟩ := he
        refine ⟨ht, ?_, Bool.eq_false_iff.mpr h2⟩
        intro hnil
        have : t = [] := hnil
        rw [this] at h1
        simp at h1
    · rw [if_neg hb] at h
      simp at h
  · rintro ⟨hd, hne, hc⟩
    have hb : startsWithChars pat.data path.data = true :=
      (startsWithChars_iff pat.data path.data).mpr ⟨id.data, hd⟩
    unfold segMatch
    rw [if_pos hb, hd, List.drop_left]
    have h1 : id.data.isEmpty = false := by
      cases hq : id.data with
      | nil => exact absurd hq hne
      | cons a l => rfl
    show (if (id.data.isEmpty || id.data.contains '/') = true then none
        else some (⟨id.data⟩ : String)) = some id
    rw [h1, hc]
    rw [if_neg (by simp)]

theorem segMatch_append {pat id : String} (hne : id.data ≠ [])
    (hc : id.data.contains '/' = false) : segMatch pat (pat ++ id) = some id :=
  segMatch_some_iff.mpr ⟨String.data_append pat id, hne, hc⟩

/-! ## Helper lemmas about the store -/

theorem kvGet_kvSet_self (store : Store) (id : String) (m : Movie) :
    kvGet (kvSet store id m) id = some m := by
  induction store with
  | nil => simp [kvSet, kvGet]
  | cons kv rest ih =>
    obtain ⟨k, v⟩ := kv
    by_cases h1 : id < k
    · simp [kvSet, h1, kvGet]
    · by_cases h2 : id = k
      · simp [kvSet, h1, h2, kvGet]
      · have h3 : ¬ k = id := fun he => h2 he.symm
        simp [kvSet, h1, h2, kvGet, h3, ih]

theorem kvGet_kvDelete_self (store : Store) (id : String) :
    kvGet (kvDelete store id) id = none := by
  induction store with
  | nil => rfl
  | cons kv rest ih =>
    obtain ⟨k, v⟩ := kv
    by_cases h : k = id
    · simpa [kvDelete, List.filter_cons, h] using ih
    · simpa [kvDelete, List.filter_cons, h, kvGet] using ih

theorem kvGet_kvDelete_ne (store : Store) (id j : String) (h : j ≠ id) :
    kvGet (kvDelete store id) j = kvGet store j := by
  induction store with
  | nil => rfl
  | cons kv rest ih =>
    obtain ⟨k, v⟩ := kv
    show kvGet (List.filter (fun p => p.1 != id) ((k, v) :: rest)) j
      = kvGet ((k, v) :: rest) j
    rw [List.filter_cons]
    by_cases hk : k = id
    · have hf : ((k, v).1 != id) = false := by simp [hk]
      rw [hf, if_neg (by simp)]
      have hkj : ¬ k = j := by rw [hk]; exact fun he => h he.symm
      rw [kvGet, if_neg hkj]
      exact ih
    · have hf : ((k, v).1 != id) = true := by simp [hk]
      rw [hf, if_pos rfl, kvGet, kvGet]
      by_cases hkj : k = j
      · rw [if_pos hkj, if_pos hkj]
      · rw [if_neg hkj, if_neg hkj]
        exact ih

theorem kvDelete_of_absent (store : Store) (id : String)
    (h : kvGet store id = none) : kvDelete store id = store := by
  induction store with
  | nil => rfl
  | cons kv rest ih =>
    obtain ⟨k, v⟩ := kv
    rw [kvGet] at h
    by_cases hk : k = id
    · simp [hk] at h
    · rw [if_neg hk] at h
      show List.filter (fun p => p.1 != id) ((k, v) :: rest) = (k, v) :: rest
      rw [List.filter_cons]
      have hf : ((k, v).1 != id) = true := by simp [hk]
      rw [hf, if_pos rfl]
      show (k, v) :: kvDelete rest id = (k, v) :: rest
      rw [ih h]

theorem parseScreenshots_ne_empty (os : Option String) :
    ¬ "" ∈ parseScreenshots os := by
  cases os with
  | none => simp [parseScreenshots]
  | some s =>
    simp [parseScreenshots, List.mem_filter]
    exact fun x _ _ => rfl

/-! ## Path disjointness bundles for the route chain -/

theorem editPath_facts {path id : String} (h : segMatch "/admin/edit/" path = some id) :
    (path == "/") = false ∧ segMatch "/movie/" path = none ∧
    (path == "/admin/login") = false ∧ (path == "/logout") = false ∧
    (path == "/admin") = false ∧ (path == "/admin/add") = false ∧
    segMatch "/admin/delete/" path = none := by
  obtain ⟨hd, -, -⟩ := segMatch_some_iff.mp h
  refine ⟨?_, ?_, ?_, ?_, ?_, ?_, ?_⟩
  · exact str_beq_false_of_data hd (append_ne_of_length (by decide))
  · exact segMatch_none_of_conflict hd (n := 2) (by decide) (by decide) (by decide)
  · exact str_beq_false_of_data hd (append_ne_of_take (n := 8) (by decide) (by decide) (by decide))
  · exact str_beq_false_of_data hd (append_ne_of_take (n := 2) (by decide) (by decide) (by decide))
  · exact str_beq_false_of_data hd (append_ne_of_length (by decide))
  · exact str_beq_false_of_data hd (append_ne_of_take (n := 8) (by decide) (by decide) (by decide))
  · exact segMatch_none_of_conflict hd (n := 8) (by decide) (by decide) (by decide)

theorem deletePath_facts {path id : String} (h : segMatch "/admin/delete/" path = some id) :
    (path == "/") = false ∧ segMatch "/movie/" path = none ∧
    (path == "/admin/login") = false ∧ (path == "/logout") = false ∧
    (path == "/admin") = false ∧ (path == "/admin/add") = false ∧
    segMatch "/admin/edit/" path = none := by
  obtain ⟨hd, -, -⟩ := segMatch_some_iff.mp h
  refine ⟨?_, ?_, ?_, ?_, ?_, ?_, ?_⟩
  · exact str_beq_false_of_data hd (append_ne_of_length (by decide))
  · exact segMatch_none_of_conflict hd (n := 2) (by decide) (by decide) (by decide)
  · exact str_beq_false_of_data hd (append_ne_of_take (n := 8) (by decide) (by decide) (by decide))
  · exact str_beq_false_of_data hd (append_ne_of_take (n := 2) (by decide) (by decide) (by decide))
  · exact str_beq_false_of_data hd (append_ne_of_length (by decide))
  · exact str_beq_false_of_data hd (append_ne_of_take (n := 8) (by decide) (by decide) (by decide))
  · exact segMatch_none_of_conflict hd (n := 8) (by decide) (by decide) (by decide)

theorem adminStart_facts {path : String} {t : List Char}
    (hd : path.data = "/admin".data ++ t) :
    (path == "/") = false ∧ segMatch "/movie/" path = none ∧
    (path == "/logout") = false := by
  refine ⟨?_, ?_, ?_⟩
  · exact str_beq_false_of_data hd (append_ne_of_length (by decide))
  · exact segMatch_none_of_conflict hd (n := 2) (by decide) (by decide) (by decide)
  · exact str_beq_false_of_data hd (append_ne_of_take (n := 2) (by decide) (by decide) (by decide))

theorem moviePath_facts {path id : String} (h : segMatch "/movie/" path = some id) :
    (path == "/") = false := by
  obtain ⟨hd, -, -⟩ := segMatch_some_iff.mp h
  exact str_beq_false_of_data hd (append_ne_of_length (by decide))

/-! ## Concrete fixtures used by the witnesses and the counterexample -/

/-- A configuration with all three environment variables set. -/
def wEnv : Env := ⟨some "admin", some "pw", some "sekrit"⟩

/-- A configuration where `SECRET_COOKIE_VALUE` is unset. -/
def wEnvNoSecret : Env := ⟨some "admin", some "pw", none⟩

/-- A form with no field present. -/
def wEmptyForm : Form := ⟨none, none, none, none, none, none, none⟩

/-- A login form carrying the correct credentials for `wEnv`. -/
def wLoginForm : Form := ⟨some "admin", some "pw", none, none, none, none, none⟩

/-- A valid login request for `wEnv` (and for `wEnvNoSecret`). -/
def wLoginReq : Request := ⟨"POST", "/admin/login", none, wLoginForm⟩

/-- A filled movie form submission. -/
def wAddForm : Form :=
  ⟨none, none, some "Inception", some "https://x/p.jpg", some "Great",
    some "https://x/1.jpg, https://x/2.jpg", some "https://x/d.mp4"⟩

/-- A stored movie record. -/
def wMovie : Movie :=
  ⟨"m1", some "T", some "P", some "R", ["s1"], some "D"⟩

/-! ## Claim theorems -/

/-- Claim C1: every request to a path starting with `/admin`, other than
`/admin/login`, whose `auth` cookie does not equal the configured shared
secret, is answered with a 303 redirect to `/admin/login`; the store is
untouched and no KV operation is performed, so the admin listing, add, edit
and delete handlers are unreachable without the cookie. -/
theorem admin_gate_redirects_unauthenticated
    (env : Env) (fresh : String) (req : Request) (store : Store)
    (hadm : strStartsWith req.pathname "/admin" = true)
    (hlogin : req.pathname ≠ "/admin/login")
    (hauth : req.authCookie ≠ env.secretCookieValue) :
    handle env fresh req store = ⟨redirect303 "/admin/login", store, []⟩ := by
  obtain ⟨method, path, auth, form⟩ := req
  simp only at hadm hlogin hauth
  obtain ⟨t, ht⟩ := (startsWithChars_iff _ _).mp hadm
  obtain ⟨h1, h2, h3⟩ := adminStart_facts ht
  have h4 : (path == "/admin/login") = false := beq_eq_false_iff_ne.mpr hlogin
  have h5 : (auth == env.secretCookieValue) = false := beq_eq_false_iff_ne.mpr hauth
  simp only [handle, h1, h2, h3, h4, h5, hadm, Option.isSome_none, Bool.false_and,
    Bool.and_false, Bool.not_false, Bool.and_true, Bool.true_and, Bool.false_eq_true,
    if_false, if_true]

/-- Witness for C1 at a concrete unauthenticated request to `/admin/add`. -/
theorem admin_gate_redirects_unauthenticated_witness :
    handle wEnv "u" ⟨"GET", "/admin/add", none, wEmptyForm⟩ []
      = ⟨redirect303 "/admin/login", [], []⟩ :=
  admin_gate_redirects_unauthenticated wEnv "u" ⟨"GET", "/admin/add", none, wEmptyForm⟩ []
    (by decide) (by decide) (by decide)

/-- Claim C2: a POST to `/admin/login` whose submitted username and password
strictly equal the configured admin username and password is answered with a
303 redirect to `/admin` that sets the cookie `auth` with `Path=/` and
max-age 86400 seconds; any other POST to `/admin/login` is answered with a
303 redirect to `/admin/login?error=1` and sets no cookie. -/
theorem login_sets_cookie_iff_credentials_match
    (env : Env) (fresh : String) (req : Request) (store : Store)
    (hp : req.pathname = "/admin/login") (hm : req.method = "POST") :
    ((jsEqFormEnv req.form.username env.adminUsername &&
      jsEqFormEnv req.form.password env.adminPassword) = true →
      handle env fresh req store =
        ⟨⟨303, some "/admin",
          some ⟨"auth", jsOr env.secretCookieValue fresh, 86400, "/"⟩,
          false, .empty⟩, store, []⟩) ∧
    ((jsEqFormEnv req.form.username env.adminUsername &&
      jsEqFormEnv req.form.password env.adminPassword) = false →
      handle env fresh req store =
        ⟨redirect303 "/admin/login?error=1", store, []⟩) := by
  obtain ⟨method, path, auth, form⟩ := req
  simp only at hp hm
  subst hp
  subst hm
  have e1 : (("/admin/login" : String) == "/") = false := by decide
  have e2 : segMatch "/movie/" "/admin/login" = none := by decide
  have e3 : (("/admin/login" : String) == "/admin/login") = true := by decide
  have e4 : (("POST" : String) == "GET") = false := by decide
  have e5 : (("POST" : String) == "POST") = true := by decide
  constructor <;> intro hcred <;>
    simp only [handle, e1, e2, e3, e4, e5, hcred, Option.isSome_none, Bool.false_and,
      Bool.and_false, Bool.false_eq_true, Bool.true_and, Bool.and_self, if_false, if_true]

/-- Witness for C2 at a concrete successful login. -/
theorem login_sets_cookie_iff_credentials_match_witness :
    handle wEnv "u" wLoginReq []
      = ⟨⟨303, some "/admin", some ⟨"auth", "sekrit", 86400, "/"⟩,
          false, .empty⟩, [], []⟩ :=
  (login_sets_cookie_iff_credentials_match wEnv "u" wLoginReq [] rfl rfl).1 (by decide)

/-- Counterexample to claim C3: with `SECRET_COOKIE_VALUE` unset, a
successful login sets the `auth` cookie to the freshly generated UUID
(`Deno.env.get(..) || crypto.randomUUID()`), a second login sets a different
value, and replaying the issued cookie does not satisfy `isLoggedIn`: the
request is redirected back to the login page.  So the cookie value is not
the configured shared secret, is not stable across logins, and does not
grant access, contradicting the claim for this configuration. -/
theorem login_cookie_not_secret_when_unset :
    (handle wEnvNoSecret "uuid-1" wLoginReq []).response.setCookie
      = some ⟨"auth", "uuid-1", 86400, "/"⟩ ∧
    (handle wEnvNoSecret "uuid-2" wLoginReq []).response.setCookie
      = some ⟨"auth", "uuid-2", 86400, "/"⟩ ∧
    (handle wEnvNoSecret "u" ⟨"GET", "/admin", some "uuid-1", wEmptyForm⟩ []).response
      = redirect303 "/admin/login" := by
  refine ⟨?_, ?_, ?_⟩ <;> decide

/-- Claim C3 as amended: when `SECRET_COOKIE_VALUE` is set to a non-empty
string, every successful login sets the `auth` cookie to exactly that
configured secret (the same value across all logins, independent of the
generated UUID), and replaying that cookie satisfies the `isLoggedIn` check:
a GET of `/admin` with it renders the dashboard. -/
theorem login_cookie_is_secret_when_set
    (env : Env) (fresh : String) (req : Request) (store : Store) (s : String)
    (hsec : env.secretCookieValue = some s) (hs : s.isEmpty = false)
    (hp : req.pathname = "/admin/login") (hm : req.method = "POST")
    (hcred : (jsEqFormEnv req.form.username env.adminUsername &&
              jsEqFormEnv req.form.password env.adminPassword) = true) :
    (handle env fresh req store).response.setCookie = some ⟨"auth", s, 86400, "/"⟩ ∧
    (∀ (fresh2 : String) (req2 : Request) (store2 : Store),
      req2.pathname = "/admin" → req2.method = "GET" → req2.authCookie = some s →
      (handle env fresh2 req2 store2).response
        = htmlResponse (.adminDashboard (kvList store2).reverse)) := by
  obtain ⟨method, path, auth, form⟩ := req
  simp only at hp hm hcred
  subst hp
  subst hm
  constructor
  · have e1 : (("/admin/login" : String) == "/") = false := by decide
    have e2 : segMatch "/movie/" "/admin/login" = none := by decide
    have e3 : (("/admin/login" : String) == "/admin/login") = true := by decide
    have e4 : (("POST" : String) == "GET") = false := by decide
    have e5 : (("POST" : String) == "POST") = true := by decide
    simp only [handle, e1, e2, e3, e4, e5, hcred, Option.isSome_none, Bool.false_and,
      Bool.and_false, Bool.false_eq_true, Bool.true_and, Bool.and_self, if_false, if_true]
    simp only [jsOr, hsec, hs, Bool.false_eq_true, if_false]
  · intro fresh2 req2 store2 hp2 hm2 hauth2
    obtain ⟨method2, path2, auth2, form2⟩ := req2
    simp only at hp2 hm2 hauth2
    subst hp2
    subst hm2
    have hlog : (auth2 == env.secretCookieValue) = true := by
      rw [hauth2, hsec]; exact beq_self_eq_true _
    have e1 : (("/admin" : String) == "/") = false := by decide
    have e2 : segMatch "/movie/" "/admin" = none := by decide
    have e3 : (("/admin" : String) == "/admin/login") = false := by decide
    have e4 : (("/admin" : String) == "/logout") = false := by decide
    have e5 : (("/admin" : String) == "/admin") = true := by decide
    have e6 : (("GET" : String) != "GET") = false := by decide
    simp only [handle, e1, e2, e3, e4, e5, e6, hlog, Option.isSome_none, Bool.false_and,
      Bool.and_false, Bool.not_true, Bool.true_and, Bool.and_self, Bool.false_eq_true,
      if_false, if_true]

/-- Witness for amended C3 at a concrete configuration with secret set. -/
theorem login_cookie_is_secret_when_set_witness :
    (handle wEnv "uuid-1" wLoginReq []).response.setCookie
      = some ⟨"auth", "sekrit", 86400, "/"⟩ :=
  (login_cookie_is_secret_when_set wEnv "uuid-1" wLoginReq [] "sekrit"
    rfl rfl rfl rfl (by decide)).1

/-- Claim C4: an authenticated POST to `/admin/add` stores the movie built
from the form under the freshly generated identifier and answers with a 303
redirect to `/admin`; a subsequent GET of `/movie/<id>` on the resulting
store renders a detail page whose record carries exactly the submitted
title, poster, review, parsed screenshots and download URL (create followed
by fetch is a round trip).  `fresh` stands for the UUID generated during the
request; UUIDs are non-empty and contain no slash. -/
theorem add_then_fetch_roundtrip
    (env : Env) (fresh : String) (req : Request) (store : Store)
    (hp : req.pathname = "/admin/add") (hm : req.method = "POST")
    (hauth : req.authCookie = env.secretCookieValue)
    (hne : fresh.data ≠ []) (hslash : fresh.data.contains '/' = false) :
    handle env fresh req store =
      ⟨redirect303 "/admin", kvSet store fresh (mkMovie fresh req.form),
        [.set fresh (mkMovie fresh req.form)]⟩ ∧
    (mkMovie fresh req.form).id = fresh ∧
    (mkMovie fresh req.form).title = req.form.title ∧
    (mkMovie fresh req.form).poster = req.form.poster ∧
    (mkMovie fresh req.form).review = req.form.review ∧
    (mkMovie fresh req.form).screenshots = parseScreenshots req.form.screenshots ∧
    (mkMovie fresh req.form).downloadUrl = req.form.downloadUrl ∧
    (∀ (fresh2 : String) (cook : Option String) (f2 : Form),
      handle env fresh2 ⟨"GET", "/movie/" ++ fresh, cook, f2⟩
          (kvSet store fresh (mkMovie fresh req.form)) =
        ⟨htmlResponse (.movieDetail (mkMovie fresh req.form)),
          kvSet store fresh (mkMovie fresh req.form), [.get fresh]⟩) := by
  obtain ⟨method, path, auth, form⟩ := req
  simp only at hp hm hauth
  subst hp
  subst hm
  have hlog : (auth == env.secretCookieValue) = true := by
    rw [hauth]; exact beq_self_eq_true _
  have e1 : (("/admin/add" : String) == "/") = false := by decide
  have e2 : segMatch "/movie/" "/admin/add" = none := by decide
  have e3 : (("/admin/add" : String) == "/admin/login") = false := by decide
  have e4 : (("/admin/add" : String) == "/logout") = false := by decide
  have e5 : (("/admin/add" : String) == "/admin") = false := by decide
  have e6 : (("/admin/add" : String) == "/admin/add") = true := by decide
  have e7 : (("POST" : String) == "GET") = false := by decide
  have e8 : (("POST" : String) == "POST") = true := by decide
  refine ⟨?_, rfl, rfl, rfl, rfl, rfl, rfl, ?_⟩
  · simp only [handle, e1, e2, e3, e4, e5, e6, e7, e8, hlog, Option.isSome_none,
      Bool.false_and, Bool.and_false, Bool.not_true, Bool.true_and, Bool.and_self,
      Bool.false_eq_true, if_false, if_true]
  · intro fresh2 cook f2
    have hd : ("/movie/" ++ fresh).data = "/movie/".data ++ fresh.data :=
      String.data_append _ _
    have g1 : (("/movie/" ++ fresh) == "/") = false :=
      str_beq_false_of_data hd (append_ne_of_length (by decide))
    have g2 : segMatch "/movie/" ("/movie/" ++ fresh) = some fresh :=
      segMatch_append hne hslash
    have g3 : (("GET" : String) == "GET") = true := by decide
    simp only [handle, g1, g2, g3, Option.isSome_some, Option.getD_some, Bool.false_and,
      Bool.false_eq_true, Bool.true_and, Bool.and_self, if_false, if_true, kvGet_kvSet_self]

/-- Witness for C4 at a concrete authenticated create. -/
theorem add_then_fetch_roundtrip_witness :
    handle wEnv "id-1" ⟨"POST", "/admin/add", some "sekrit", wAddForm⟩ [] =
      ⟨redirect303 "/admin", kvSet [] "id-1" (mkMovie "id-1" wAddForm),
        [.set "id-1" (mkMovie "id-1" wAddForm)]⟩ :=
  (add_then_fetch_roundtrip wEnv "id-1" ⟨"POST", "/admin/add", some "sekrit", wAddForm⟩ []
    rfl rfl rfl (by decide) (by decide)).1

/-- Claim C5: an authenticated POST to `/admin/edit/<id>` on an existing
record stores, under the same identifier, the movie built exclusively from
the submitted form fields — the identifier is preserved and every other
field equals the new submission, none is retained from the previous record —
and answers with a 303 redirect to `/admin`. -/
theorem edit_existing_replaces_all_fields
    (env : Env) (fresh : String) (req : Request) (store : Store)
    (id : String) (old : Movie)
    (hseg : segMatch "/admin/edit/" req.pathname = some id)
    (hm : req.method = "POST") (hauth : req.authCookie = env.secretCookieValue)
    (hexists : kvGet store id = some old) :
    handle env fresh req store =
      ⟨redirect303 "/admin", kvSet store id (mkMovie id req.form),
        [.set id (mkMovie id req.form)]⟩ ∧
    kvGet (handle env fresh req store).store id = some (mkMovie id req.form) ∧
    (mkMovie id req.form).id = id ∧
    (mkMovie id req.form).title = req.form.title ∧
    (mkMovie id req.form).poster = req.form.poster ∧
    (mkMovie id req.form).review = req.form.review ∧
    (mkMovie id req.form).screenshots = parseScreenshots req.form.screenshots ∧
    (mkMovie id req.form).downloadUrl = req.form.downloadUrl := by
  obtain ⟨method, path, auth, form⟩ := req
  simp only at hseg hm hauth
  subst hm
  obtain ⟨h1, h2, h3, h4, h5, h6, h7⟩ := editPath_facts hseg
  have hlog : (auth == env.secretCookieValue) = true := by
    rw [hauth]; exact beq_self_eq_true _
  have e7 : (("POST" : String) == "GET") = false := by decide
  have e8 : (("POST" : String) == "POST") = true := by decide
  have hmain : handle env fresh ⟨"POST", path, auth, form⟩ store =
      ⟨redirect303 "/admin", kvSet store id (mkMovie id form),
        [.set id (mkMovie id form)]⟩ := by
    simp only [handle, h1, h2, h3, h4, h5, h6, h7, hseg, hlog, e7, e8,
      Option.isSome_some, Option.isSome_none, Option.getD_some, Bool.false_and,
      Bool.and_false, Bool.not_true, Bool.true_and, Bool.and_self, Bool.false_eq_true,
      if_false, if_true]
  refine ⟨hmain, ?_, rfl, rfl, rfl, rfl, rfl, rfl⟩
  rw [hmain]
  exact kvGet_kvSet_self store id (mkMovie id form)

/-- Witness for C5 at a concrete authenticated edit of a stored record. -/
theorem edit_existing_replaces_all_fields_witness :
    handle wEnv "u" ⟨"POST", "/admin/edit/m1", some "sekrit", wAddForm⟩ [("m1", wMovie)] =
      ⟨redirect303 "/admin", kvSet [("m1", wMovie)] "m1" (mkMovie "m1" wAddForm),
        [.set "m1" (mkMovie "m1" wAddForm)]⟩ :=
  (edit_existing_replaces_all_fields wEnv "u"
    ⟨"POST", "/admin/edit/m1", some "sekrit", wAddForm⟩ [("m1", wMovie)] "m1" wMovie
    (by decide) rfl rfl rfl).1

/-- Claim C6: an authenticated POST to `/admin/delete/<id>` removes the key
`("movies", id)` and answers with a 303 redirect to `/admin`; a subsequent
GET of `/movie/<id>` on the resulting store is a 404; when no record with
that id exists the delete is a no-op on the store and still answers 303;
every other identifier's record is unchanged. -/
theorem delete_removes_key
    (env : Env) (fresh : String) (req : Request) (store : Store) (id : String)
    (hseg : segMatch "/admin/delete/" req.pathname = some id)
    (hm : req.method = "POST") (hauth : req.authCookie = env.secretCookieValue) :
    handle env fresh req store = ⟨redirect303 "/admin", kvDelete store id, [.delete id]⟩ ∧
    kvGet (kvDelete store id) id = none ∧
    (∀ (fresh2 : String) (cook : Option String) (f2 : Form),
      handle env fresh2 ⟨"GET", "/movie/" ++ id, cook, f2⟩ (kvDelete store id) =
        ⟨textResponse 404 "Movie not found", kvDelete store id, [.get id]⟩) ∧
    (kvGet store id = none → kvDelete store id = store) ∧
    (∀ j, j ≠ id → kvGet (kvDelete store id) j = kvGet store j) := by
  obtain ⟨method, path, auth, form⟩ := req
  simp only at hseg hm hauth
  subst hm
  obtain ⟨h1, h2, h3, h4, h5, h6, h7⟩ := deletePath_facts hseg
  obtain ⟨-, hid_ne, hid_sl⟩ := segMatch_some_iff.mp hseg
  have hlog : (auth == env.secretCookieValue) = true := by
    rw [hauth]; exact beq_self_eq_true _
  have e7 : (("POST" : String) == "GET") = false := by decide
  have e8 : (("POST" : String) == "POST") = true := by decide
  refine ⟨?_, kvGet_kvDelete_self store id, ?_, kvDelete_of_absent store id, ?_⟩
  · simp only [handle, h1, h2, h3, h4, h5, h6, h7, hseg, hlog, e7, e8,
      Option.isSome_some, Option.isSome_none, Option.getD_some, Bool.false_and,
      Bool.and_false, Bool.not_true, Bool.true_and, Bool.and_self, Bool.false_eq_true,
      if_false, if_true]
  · intro fresh2 cook f2
    have hd : ("/movie/" ++ id).data = "/movie/".data ++ id.data := String.data_append _ _
    have g1 : (("/movie/" ++ id) == "/") = false :=
      str_beq_false_of_data hd (append_ne_of_length (by decide))
    have g2 : segMatch "/movie/" ("/movie/" ++ id) = some id := segMatch_append hid_ne hid_sl
    have g3 : (("GET" : String) == "GET") = true := by decide
    simp only [handle, g1, g2, g3, Option.isSome_some, Option.getD_some, Bool.false_and,
      Bool.false_eq_true, Bool.true_and, Bool.and_self, if_false, if_true,
      kvGet_kvDelete_self]
  · exact fun j hj => kvGet_kvDelete_ne store id j hj

/-- Witness for C6 at a concrete authenticated delete of an absent id. -/
theorem delete_removes_key_witness :
    handle wEnv "u" ⟨"POST", "/admin/delete/zzz", some "sekrit", wEmptyForm⟩ [("m1", wMovie)] =
      ⟨redirect303 "/admin", kvDelete [("m1", wMovie)] "zzz", [.delete "zzz"]⟩ :=
  (delete_removes_key wEnv "u"
    ⟨"POST", "/admin/delete/zzz", some "sekrit", wEmptyForm⟩ [("m1", wMovie)] "zzz"
    (by decide) rfl rfl).1

/-- Claim C7: a GET of `/movie/<id>` with no record stored under that id is
answered with a 404 carrying the not-found text, and the store is unchanged;
a request matching none of the route guards is answered with the plain-text
`404: Page not found` response, with the store unchanged and no KV
operation performed. -/
theorem not_found_responses
    (env : Env) (fresh : String) (req : Request) (store : Store) :
    (∀ id : String, segMatch "/movie/" req.pathname = some id → req.method = "GET" →
      kvGet store id = none →
      handle env fresh req store = ⟨textResponse 404 "Movie not found", store, [.get id]⟩) ∧
    (matchedRoute env req = false →
      handle env fresh req store = ⟨textResponse 404 "404: Page not found", store, []⟩) := by
  obtain ⟨method, path, auth, form⟩ := req
  simp only
  constructor
  · intro id hseg hm habsent
    subst hm
    have h1 := moviePath_facts hseg
    have e9 : (("GET" : String) == "GET") = true := by decide
    simp only [handle, h1, hseg, e9, habsent, Option.isSome_some, Option.getD_some,
      Bool.false_and, Bool.false_eq_true, Bool.true_and, Bool.and_self, if_false, if_true]
  · intro hmr
    cases hmov : segMatch "/movie/" path <;>
      cases hedit : segMatch "/admin/edit/" path <;>
        cases hdel : segMatch "/admin/delete/" path <;>
          simp_all [handle, matchedRoute] <;>
            (try (split_ifs <;> simp_all))

/-- Witness for C7 at a concrete unknown movie id. -/
theorem not_found_responses_witness :
    handle wEnv "u" ⟨"GET", "/movie/nope", none, wEmptyForm⟩ [] =
      ⟨textResponse 404 "Movie not found", [], [.get "nope"]⟩ :=
  (not_found_responses wEnv "u" ⟨"GET", "/movie/nope", none, wEmptyForm⟩ []).1
    "nope" (by decide) rfl rfl

/-- Claim C8: the public listing (GET `/`) renders exactly the reverse of
the sequence the store's prefix scan produces, and so does the authenticated
admin listing (GET `/admin`); being a reversal, the rendered sequence is a
permutation of the scan, containing every stored record exactly once. -/
theorem listings_reverse_scan_order
    (env : Env) (fresh : String) (req : Request) (store : Store) :
    (req.pathname = "/" → req.method = "GET" →
      handle env fresh req store =
        ⟨htmlResponse (.homeGrid (kvList store).reverse), store, [.list]⟩ ∧
      ((kvList store).reverse).Perm (kvList store)) ∧
    (req.pathname = "/admin" → req.method = "GET" →
      req.authCookie = env.secretCookieValue →
      handle env fresh req store =
        ⟨htmlResponse (.adminDashboard (kvList store).reverse), store, [.list]⟩ ∧
      ((kvList store).reverse).Perm (kvList store)) := by
  obtain ⟨method, path, auth, form⟩ := req
  simp only
  constructor
  · intro hp hm
    subst hp
    subst hm
    refine ⟨?_, List.reverse_perm _⟩
    simp only [handle]
    rw [if_pos (by decide)]
  · intro hp hm hauth
    subst hp
    subst hm
    have hlog : (auth == env.secretCookieValue) = true := by
      rw [hauth]; exact beq_self_eq_true _
    have e1 : (("/admin" : String) == "/") = false := by decide
    have e2 : segMatch "/movie/" "/admin" = none := by decide
    have e3 : (("/admin" : String) == "/admin/login") = false := by decide
    have e4 : (("/admin" : String) == "/logout") = false := by decide
    have e5 : (("/admin" : String) == "/admin") = true := by decide
    have e6 : (("GET" : String) != "GET") = false := by decide
    refine ⟨?_, List.reverse_perm _⟩
    simp only [handle, e1, e2, e3, e4, e5, e6, hlog, Option.isSome_none, Bool.false_and,
      Bool.and_false, Bool.not_true, Bool.true_and, Bool.and_self, Bool.false_eq_true,
      if_false, if_true]

/-- Witness for C8 at a concrete GET of the home page. -/
theorem listings_reverse_scan_order_witness :
    handle wEnv "u" ⟨"GET", "/", none, wEmptyForm⟩ [("m1", wMovie)] =
      ⟨htmlResponse (.homeGrid (kvList [("m1", wMovie)]).reverse), [("m1", wMovie)], [.list]⟩ :=
  ((listings_reverse_scan_order wEnv "u" ⟨"GET", "/", none, wEmptyForm⟩
    [("m1", wMovie)]).1 rfl rfl).1

/-- Claim C9: the handler's response has status 405 exactly when the request
is an authenticated non-GET to `/admin` — no other route produces a 405 —
and in that case the response is the plain-text `Method Not Allowed` with
the store untouched. -/
theorem method_not_allowed_only_on_admin
    (env : Env) (fresh : String) (req : Request) (store : Store) :
    ((handle env fresh req store).response.status = 405 ↔
      req.pathname = "/admin" ∧ req.method ≠ "GET" ∧
        req.authCookie = env.secretCookieValue) ∧
    (req.pathname = "/admin" → req.method ≠ "GET" →
      req.authCookie = env.secretCookieValue →
      handle env fresh req store = ⟨textResponse 405 "Method Not Allowed", store, []⟩) := by
  obtain ⟨method, path, auth, form⟩ := req
  simp only
  have hback : path = "/admin" → method ≠ "GET" → auth = env.secretCookieValue →
      handle env fresh ⟨method, path, auth, form⟩ store =
        ⟨textResponse 405 "Method Not Allowed", store, []⟩ := by
    intro hp hgm hauth
    subst hp
    have hlog : (auth == env.secretCookieValue) = true := by
      rw [hauth]; exact beq_self_eq_true _
    have hbne : (method != "GET") = true := bne_iff_ne.mpr hgm
    have e1 : (("/admin" : String) == "/") = false := by decide
    have e2 : segMatch "/movie/" "/admin" = none := by decide
    have e3 : (("/admin" : String) == "/admin/login") = false := by decide
    have e4 : (("/admin" : String) == "/logout") = false := by decide
    have e5 : (("/admin" : String) == "/admin") = true := by decide
    simp only [handle, e1, e2, e3, e4, e5, hlog, hbne, Option.isSome_none,
      Bool.false_and, Bool.and_false, Bool.not_true, Bool.true_and, Bool.and_self,
      Bool.false_eq_true, if_false, if_true]
  refine ⟨⟨?_, ?_⟩, hback⟩
  · intro h
    simp only [handle] at h
    by_cases b1 : (path == "/" && method == "GET") = true
    · rw [if_pos b1] at h
      simp [htmlResponse] at h
    · rw [if_neg b1] at h
      by_cases b2 : ((segMatch "/movie/" path).isSome && method == "GET") = true
      · rw [if_pos b2] at h
        cases hkv : kvGet store ((segMatch "/movie/" path).getD "") <;>
          simp [hkv, htmlResponse, textResponse] at h
      · rw [if_neg b2] at h
        by_cases b3 : (path == "/admin/login" && method == "GET") = true
        · rw [if_pos b3] at h
          simp [htmlResponse] at h
        · rw [if_neg b3] at h
          by_cases b4 : (path == "/admin/login" && method == "POST") = true
          · rw [if_pos b4] at h
            cases hc : (jsEqFormEnv form.username env.adminUsername &&
                jsEqFormEnv form.password env.adminPassword) <;>
              simp [hc, redirect303] at h
          · rw [if_neg b4] at h
            by_cases b5 : (path == "/logout") = true
            · rw [if_pos b5] at h
              simp at h
            · rw [if_neg b5] at h
              by_cases b6 : (strStartsWith path "/admin" && !(auth == env.secretCookieValue)) = true
              · rw [if_pos b6] at h
                simp [redirect303] at h
              · rw [if_neg b6] at h
                by_cases b7 : (path == "/admin") = true
                · rw [if_pos b7] at h
                  have hpath := eq_of_beq b7
                  subst hpath
                  by_cases b7m : (method != "GET") = true
                  · have hlog : (auth == env.secretCookieValue) = true := by
                      by_contra hcon
                      rw [Bool.not_eq_true] at hcon
                      exact b6 (by rw [hcon]; decide)
                    exact ⟨rfl, bne_iff_ne.mp b7m, eq_of_beq hlog⟩
                  · rw [if_neg b7m] at h
                    simp [htmlResponse] at h
                · rw [if_neg b7] at h
                  by_cases b8 : (path == "/admin/add" && method == "GET") = true
                  · rw [if_pos b8] at h
                    simp [htmlResponse] at h
                  · rw [if_neg b8] at h
                    by_cases b9 : (path == "/admin/add" && method == "POST") = true
                    · rw [if_pos b9] at h
                      simp [redirect303] at h
                    · rw [if_neg b9] at h
                      by_cases b10 : ((segMatch "/admin/edit/" path).isSome && method == "GET") = true
                      · rw [if_pos b10] at h
                        cases hkv : kvGet store ((segMatch "/admin/edit/" path).getD "") <;>
                          simp [hkv, htmlResponse, textResponse] at h
                      · rw [if_neg b10] at h
                        by_cases b11 : ((segMatch "/admin/edit/" path).isSome && method == "POST") = true
                        · rw [if_pos b11] at h
                          simp [redirect303] at h
                        · rw [if_neg b11] at h
                          by_cases b12 : ((segMatch "/admin/delete/" path).isSome && method == "POST") = true
                          · rw [if_pos b12] at h
                            simp [redirect303] at h
                          · rw [if_neg b12] at h
                            simp [textResponse] at h
  · rintro ⟨hp, hgm, hauth⟩
    rw [hback hp hgm hauth]
    rfl

/-- Witness for C9 at a concrete authenticated PUT to `/admin`. -/
theorem method_not_allowed_only_on_admin_witness :
    handle wEnv "u" ⟨"PUT", "/admin", some "sekrit", wEmptyForm⟩ [] =
      ⟨textResponse 405 "Method Not Allowed", [], []⟩ :=
  (method_not_allowed_only_on_admin wEnv "u"
    ⟨"PUT", "/admin", some "sekrit", wEmptyForm⟩ []).2 rfl (by decide) rfl

/-- Claim C10: an authenticated POST to `/admin/edit/<id>` for an id with no
stored record does not answer 404: it stores a new record built from the
form under that id and answers 303 to `/admin`, even though the
corresponding GET of the same path answers 404 `Not Found`; moreover the
screenshots field is split on commas, trimmed and cleared of empty entries
(a missing field yields the empty list), so the stored screenshots list
never contains an empty string. -/
theorem edit_post_upserts_missing_id
    (env : Env) (fresh : String) (req : Request) (store : Store) (id : String)
    (hseg : segMatch "/admin/edit/" req.pathname = some id)
    (hm : req.method = "POST") (hauth : req.authCookie = env.secretCookieValue)
    (habsent : kvGet store id = none) :
    handle env fresh req store =
      ⟨redirect303 "/admin", kvSet store id (mkMovie id req.form),
        [.set id (mkMovie id req.form)]⟩ ∧
    kvGet (kvSet store id (mkMovie id req.form)) id = some (mkMovie id req.form) ∧
    (∀ (fresh2 : String) (f2 : Form),
      handle env fresh2 ⟨"GET", req.pathname, req.authCookie, f2⟩ store =
        ⟨textResponse 404 "Not Found", store, [.get id]⟩) ∧
    (∀ s ∈ (mkMovie id req.form).screenshots, s ≠ "") := by
  obtain ⟨method, path, auth, form⟩ := req
  simp only at hseg hm hauth
  subst hm
  obtain ⟨h1, h2, h3, h4, h5, h6, h7⟩ := editPath_facts hseg
  have hlog : (auth == env.secretCookieValue) = true := by
    rw [hauth]; exact beq_self_eq_true _
  have e7 : (("POST" : String) == "GET") = false := by decide
  have e8 : (("POST" : String) == "POST") = true := by decide
  have e9 : (("GET" : String) == "GET") = true := by decide
  refine ⟨?_, kvGet_kvSet_self store id _, ?_, ?_⟩
  · simp only [handle, h1, h2, h3, h4, h5, h6, h7, hseg, hlog, e7, e8,
      Option.isSome_some, Option.isSome_none, Option.getD_some, Bool.false_and,
      Bool.and_false, Bool.not_true, Bool.true_and, Bool.and_self, Bool.false_eq_true,
      if_false, if_true]
  · intro fresh2 f2
    simp only [handle, h1, h2, h3, h4, h5, h6, h7, hseg, hlog, e9, habsent,
      Option.isSome_some, Option.isSome_none, Option.getD_some, Bool.false_and,
      Bool.and_false, Bool.not_true, Bool.true_and, Bool.and_self, Bool.false_eq_true,
      if_false, if_true]
  · intro s hs he
    exact parseScreenshots_ne_empty form.screenshots (he ▸ hs)

/-- Witness for C10 at a concrete authenticated edit of a missing id. -/
theorem edit_post_upserts_missing_id_witness :
    handle wEnv "u" ⟨"POST", "/admin/edit/m9", some "sekrit", wAddForm⟩ [] =
      ⟨redirect303 "/admin", kvSet [] "m9" (mkMovie "m9" wAddForm),
        [.set "m9" (mkMovie "m9" wAddForm)]⟩ :=
  (edit_post_upserts_missing_id wEnv "u"
    ⟨"POST", "/admin/edit/m9", some "sekrit", wAddForm⟩ [] "m9"
    (by decide) rfl rfl rfl).1

end MovieApp
